import Mathlib

/-!
Verification development for the mcp-web DuckDuckGo search MCP server.

The TypeScript source keeps two pieces of process-wide mutable state
("searchState" and "captchaState"), a shared HTML classifier
("parseSearchResults"), a response renderer that also runs the puzzle
compositor ("dataToResult"), and three stateful tools ("search",
"search_next", "solve_captcha").  We embed those parts shallowly:

* HTML documents are represented by the abstract structure "Doc", which
  records exactly the features the cheerio selector queries of
  "parseSearchResults" read (presence of the challenge, error and success
  forms, the results container, the result items in document order, and
  the form holding the Next control together with its input descendants).
* Mutable state updates become explicit state passing; each tool returns
  its result, the post states, and the list of network requests it issued
  (with the session state as it stood at the moment of issue, so that
  "consumed before the request" is expressible).
* The network is an input: the transport response of a tool call is a
  parameter, and challenge-tile downloads are a function from URL to an
  optional byte buffer.
* JavaScript truthiness of the nullable string fields is modelled on
  Option String ("none" for null, an empty string is falsy); the
  serialized form-data string "nextFormData" is modelled as the list of
  appended (name, value) pairs, where the empty serialization corresponds
  to the empty list (every appended pair has a nonempty name, so the
  URLSearchParams serialization is empty exactly when no pair was added).
-/

namespace McpWeb

/-- One byte buffer, as returned by a successful tile download. -/
abbrev Buffer := List Nat

/-- An input element inside the Next-control form: its optional name and
value attributes. -/
structure InputElem where
  name : Option String
  value : Option String
deriving DecidableEq

/-- One ".result" item: text of the first ".result__a" (none when the
element is absent), its href attribute, and the text of the first
".result__snippet" (none when absent). -/
structure ResultItem where
  title : Option String
  href : Option String
  snippet : Option String
deriving DecidableEq

/-- One ".anomaly-modal__image" element: its src attribute. -/
structure ImageElem where
  src : Option String
deriving DecidableEq

/-- The "#challenge-form" element: action attribute, the value attribute of
its challenge-submit button, its tile images in document order, and the
text of ".anomaly-modal__instructions" (empty when absent, matching the
text() of an empty selection). -/
structure ChallengeForm where
  action : Option String
  submitValue : Option String
  images : List ImageElem
  instructions : String
deriving DecidableEq

/-- The "#error-form" element: action attribute and the text of the first
".anomaly-modal__error-instructions" (empty when absent). -/
structure ErrorForm where
  action : Option String
  errorText : String
deriving DecidableEq

/-- Abstract parsed HTML document: the features read by the selector
queries of parseSearchResults. -/
structure Doc where
  challengeForm : Option ChallengeForm
  errorForm : Option ErrorForm
  successForm : Bool
  hasResultsContainer : Bool
  results : List ResultItem
  nextControl : Option (List InputElem)
deriving DecidableEq

/-- A transport response: ok flag, status code, and the parsed body. -/
structure HttpResponse where
  ok : Bool
  status : Nat
  body : Doc
deriving DecidableEq

/-- A search result record as pushed by parseSearchResults. -/
structure SearchResult where
  title : String
  url : String
  description : String
deriving DecidableEq

/-- The mutable searchState object. -/
structure SearchState where
  currentQuery : Option String
  currentPage : Nat
  nextFormData : Option (List (String × String))
deriving DecidableEq

/-- The mutable captchaState object. -/
structure CaptchaState where
  challenge : Option String
  images : Option (List String)
  action : Option String
  submitValue : Option String
  checkboxNames : Option (List String)
deriving DecidableEq

/-- The classification returned by parseSearchResults (its "mode" field). -/
inductive ParseData where
  | captcha (challenge : String) (images : List String)
  | captchaFailed (error : String) (next : String)
  | captchaSuccess
  | unknown
  | results (hasMore : Bool) (results : List SearchResult)
deriving DecidableEq

/-- True exactly on the captcha classification. -/
def ParseData.isCaptcha : ParseData → Bool
  | .captcha _ _ => true
  | _ => false

/-- True exactly on the captcha-failed classification. -/
def ParseData.isFailed : ParseData → Bool
  | .captchaFailed _ _ => true
  | _ => false

/-- True exactly on the captcha-success classification. -/
def ParseData.isSuccess : ParseData → Bool
  | .captchaSuccess => true
  | _ => false

/-- True exactly on the unknown classification. -/
def ParseData.isUnknown : ParseData → Bool
  | .unknown => true
  | _ => false

/-- True exactly on the results classification. -/
def ParseData.isResults : ParseData → Bool
  | .results _ _ => true
  | _ => false

/-! Character-level string operations.  The standard String.startsWith,
String.trim and String.splitOn are defined by well-founded recursion on
byte positions and do not reduce inside the kernel, so witnesses could
not evaluate them; these equivalents compute structurally on the
character list and model the corresponding JavaScript operations. -/

/-- Strip the second list from the front of the first, returning the rest
when it is a prefix. -/
def stripFrontCh : List Char → List Char → Option (List Char)
  | l, [] => some l
  | [], _ :: _ => none
  | a :: l, b :: p => if a = b then stripFrontCh l p else none

/-- True when p occurs at the front of s. -/
def jsStartsWith (s p : String) : Bool :=
  (stripFrontCh s.data p.data).isSome

/-- Fuel-driven split of a character list on a nonempty pattern,
leftmost-first as the JavaScript String.split does. -/
def splitOnChAux (p : List Char) : Nat → List Char → List (List Char)
  | _, [] => [[]]
  | 0, l => [l]
  | Nat.succ fuel, a :: l =>
      match stripFrontCh (a :: l) p with
      | some suffix => [] :: splitOnChAux p fuel suffix
      | none =>
          match splitOnChAux p fuel l with
          | [] => [[a]]
          | h :: t => (a :: h) :: t

/-- Split a string on occurrences of a separator (the separators used by
the source are "/" and ".jpg", both nonempty). -/
def jsSplitOn (s sep : String) : List String :=
  if sep = "" then [s]
  else (splitOnChAux sep.data (s.data.length + 1) s.data).map fun l => ⟨l⟩

/-- Whitespace as trimmed by JavaScript String.trim in the forms these
pages contain. -/
def isWhitespaceCh (c : Char) : Bool :=
  c = ' ' || c = '\t' || c = '\n' || c = '\r'

/-- Trim whitespace from both ends of a string. -/
def jsTrim (s : String) : String :=
  ⟨((s.data.dropWhile isWhitespaceCh).reverse.dropWhile isWhitespaceCh).reverse⟩

/-- Replace the first occurrence of pat in s, as the JavaScript
String.replace with a string pattern does. -/
def replaceFirst (s pat : String) : String :=
  match jsSplitOn s pat with
  | [] => s
  | [x] => x
  | x :: rest => x ++ String.intercalate pat rest

/-- Resolution of a tile src against the base "https://duckduckgo.com",
modelling new URL(src, base).href for the absolute and path-relative
forms these pages use.  Note the result is never the empty string. -/
def resolveUrl (src : String) : String :=
  if jsStartsWith src "https://" || jsStartsWith src "http://" then src
  else if jsStartsWith src "/" then "https://duckduckgo.com" ++ src
  else "https://duckduckgo.com/" ++ src

/-- The filename stem of a tile src: the last path segment with the first
".jpg" occurrence removed, as in src.split("/").pop()?.replace(".jpg", ""). -/
def imageStem (src : String) : String :=
  replaceFirst ((jsSplitOn src "/").getLastD "") ".jpg"

/-- The images array of the captcha state: one absolute URL pushed per
tile element, the src attribute defaulting to the empty string. -/
def challengeImages (imgs : List ImageElem) : List String :=
  imgs.map fun e => resolveUrl ((e.src).getD "")

/-- The checkbox name derived from one tile element: composed from the
filename stem only when the stem is truthy (nonempty). -/
def checkboxNameOf (e : ImageElem) : Option String :=
  if imageStem ((e.src).getD "") = "" then none
  else some ("image-check_" ++ imageStem ((e.src).getD ""))

/-- The checkboxNames array of the captcha state: a name composed from the
filename stem is pushed only when the stem is nonempty. -/
def challengeCheckboxNames (imgs : List ImageElem) : List String :=
  imgs.filterMap checkboxNameOf

/-- The captchaState value stored when a challenge form is detected. -/
def challengeCaptchaState (f : ChallengeForm) : CaptchaState :=
  { challenge := some f.instructions
    images := some (challengeImages f.images)
    action := some (f.action.getD "")
    submitValue := some (f.submitValue.getD "")
    checkboxNames := some (challengeCheckboxNames f.images) }

/-- Extraction of one result item: pushed only when the title element
exists and its trimmed text is nonempty; the href defaults to the empty
string and the snippet to the empty string when absent. -/
def extractResult (r : ResultItem) : Option SearchResult :=
  match r.title with
  | none => none
  | some t =>
      let title := jsTrim t
      if title = "" then none
      else some { title := title
                  url := r.href.getD ""
                  description := (r.snippet.map jsTrim).getD "" }

/-- The pagination form data: the (name, value) pairs appended for the
input descendants of the Next form that carry a truthy (nonempty) name,
the value defaulting to the empty string. -/
def namedPairs (inputs : List InputElem) : List (String × String) :=
  inputs.filterMap fun i =>
    match i.name with
    | some n => if n = "" then none else some (n, i.value.getD "")
    | none => none

/-- Shallow embedding of parseSearchResults: classifies the document in
the order of the source (challenge form, error form, success form,
results container, result extraction), storing the captcha state on the
challenge branch and the pagination form data on the results branch with
a Next control. -/
def parseSearchResults (doc : Doc) (st : SearchState) (cs : CaptchaState) :
    ParseData × SearchState × CaptchaState :=
  match doc.challengeForm with
  | some f =>
      (ParseData.captcha f.instructions (challengeImages f.images), st,
        challengeCaptchaState f)
  | none =>
    match doc.errorForm with
    | some e => (ParseData.captchaFailed (jsTrim e.errorText) (e.action.getD ""), st, cs)
    | none =>
      if doc.successForm then (ParseData.captchaSuccess, st, cs)
      else if doc.hasResultsContainer = false then (ParseData.unknown, st, cs)
      else
        let results := doc.results.filterMap extractResult
        match doc.nextControl with
        | none => (ParseData.results false results, st, cs)
        | some inputs =>
            (ParseData.results true results,
              { st with nextFormData := some (namedPairs inputs) }, cs)

/-- The puzzle compositor canvas, recording only its dimensions. -/
structure Image where
  width : Nat
  height : Nat
deriving DecidableEq

/-- The fixed tile edge length of the composite grid. -/
def tileSize : Nat := 256

/-- The pureimage.make call: a blank canvas of the given dimensions. -/
def pureimageMake (w h : Nat) : Image := { width := w, height := h }

/-- The downloaded tile buffers: one download attempted per image URL
(an empty URL yields null immediately), failures dropped by the filter. -/
def downloadBuffers (fi : String → Option Buffer) (images : List String) :
    List Buffer :=
  (images.map fun u => if u = "" then none else fi u).filterMap id

/-- The response rendered by dataToResult, keeping the data each branch of
the source produces (messages are represented by their branch). -/
inductive DataResult where
  | captchaFailedMsg (error : String)
  | captchaSuccessMsg
  | unknownMsg
  | captchaPuzzle (img : Image)
  | captchaUnavailable
  | resultsMsg (count : Nat) (hasMore : Bool) (results : List SearchResult)
deriving DecidableEq

/-- Shallow embedding of dataToResult: the captcha-failed, captcha-success
and unknown branches return immediately; the captcha branch downloads the
tiles and enters the compositor only when exactly 9 buffers survived,
otherwise reporting the blocked message; the results branch reports the
count and the items. -/
def dataToResult (data : ParseData) (fi : String → Option Buffer) : DataResult :=
  match data with
  | .captchaFailed err _next => .captchaFailedMsg err
  | .captchaSuccess => .captchaSuccessMsg
  | .unknown => .unknownMsg
  | .captcha _challenge images =>
      let imageBuffers := downloadBuffers fi images
      if imageBuffers.length = 9 then
        .captchaPuzzle (pureimageMake (tileSize * 3) (tileSize * 3))
      else
        .captchaUnavailable
  | .results hasMore results => .resultsMsg results.length hasMore results

/-- The result of one tool call. -/
inductive ToolResult where
  | transportError (status : Nat)
  | noNextPage
  | noCaptchaActive
  | parsed (r : DataResult)
deriving DecidableEq

/-- One network request issued by a tool, together with the session and
captcha state as they stood at the moment the request went out. -/
structure IssuedRequest where
  body : List (String × String)
  stateAtIssue : SearchState
  captchaAtIssue : CaptchaState
deriving DecidableEq

/-- Truthiness of a nullable string field: null and the empty string are
falsy. -/
def strFalsy : Option String → Bool
  | none => true
  | some s => s == ""

/-- Truthiness of a nullable array field: only null is falsy (an empty
array is truthy in JavaScript). -/
def optArrFalsy : Option (List String) → Bool
  | none => true
  | some _ => false

/-- Truthiness of the nullable serialized form data: null is falsy, and
the stored string is empty exactly when no pair was appended. -/
def formFalsy : Option (List (String × String)) → Bool
  | none => true
  | some l => l.isEmpty

/-- The searchState value assigned at the top of the search tool. -/
def searchReset (query : String) : SearchState :=
  { currentQuery := some query, currentPage := 1, nextFormData := none }

/-- The search request body (the region and date-frame parameters of the
source are query-dependent constants irrelevant to the claims and are
omitted). -/
def searchBody (query : String) : List (String × String) :=
  [("q", query), ("b", "")]

/-- Shallow embedding of the search tool: reset the session state, issue
the request, short-circuit on a non-ok response, otherwise classify and
render. -/
def searchTool (query : String) (resp : HttpResponse)
    (fi : String → Option Buffer) (_st : SearchState) (cs : CaptchaState) :
    ToolResult × SearchState × CaptchaState × List IssuedRequest :=
  let st1 := searchReset query
  let req : IssuedRequest := ⟨searchBody query, st1, cs⟩
  if !resp.ok then (.transportError resp.status, st1, cs, [req])
  else
    let p := parseSearchResults resp.body st1 cs
    (.parsed (dataToResult p.1 fi), p.2.1, p.2.2, [req])

/-- The validity guard of the search_next tool: no truthy pending form
data, or the page counter beyond 5. -/
def searchNextGuard (st : SearchState) : Bool :=
  formFalsy st.nextFormData || decide (5 < st.currentPage)

/-- Shallow embedding of the search_next tool: fail without a request when
the guard trips; otherwise increment the page, capture the body, clear
the pending form data, and only then issue the request. -/
def searchNextTool (resp : HttpResponse) (fi : String → Option Buffer)
    (st : SearchState) (cs : CaptchaState) :
    ToolResult × SearchState × CaptchaState × List IssuedRequest :=
  if searchNextGuard st then (.noNextPage, st, cs, [])
  else
    let body := st.nextFormData.getD []
    let st1 : SearchState :=
      { st with currentPage := st.currentPage + 1, nextFormData := none }
    let req : IssuedRequest := ⟨body, st1, cs⟩
    if !resp.ok then (.transportError resp.status, st1, cs, [req])
    else
      let p := parseSearchResults resp.body st1 cs
      (.parsed (dataToResult p.1 fi), p.2.1, p.2.2, [req])

/-- The activity guard of the solve_captcha tool: every string field
truthy (non-null, nonempty) and both array fields non-null. -/
def captchaActive (cs : CaptchaState) : Bool :=
  !strFalsy cs.challenge && !optArrFalsy cs.images && !strFalsy cs.action &&
    !strFalsy cs.submitValue && !optArrFalsy cs.checkboxNames

/-- The loop body of the solve_captcha form construction: for an index
lying in 1..length, the positionally selected checkbox name is appended
with value "1" when the name is truthy; otherwise nothing is appended. -/
def checkboxFieldFor (checkboxNames : List String) (index : Int) :
    Option (String × String) :=
  if 1 ≤ index ∧ index ≤ (checkboxNames.length : Int) then
    match checkboxNames[(index - 1).toNat]? with
    | some checkboxName =>
        if checkboxName = "" then none else some (checkboxName, "1")
    | none => none
  else none

/-- The solve_captcha form data: the challenge-submit field first, then
one checked field per index lying in 1..length, mapped positionally to
the checkbox names (a falsy name is skipped); out-of-range indices
append nothing. -/
def buildCaptchaForm (submitValue : String) (checkboxNames : List String)
    (indices : List Int) : List (String × String) :=
  ("challenge-submit", submitValue) ::
    indices.filterMap (checkboxFieldFor checkboxNames)

/-- Shallow embedding of the solve_captcha tool: fail without a request
when no challenge is active; otherwise build the form data, post it, and
classify the response.  Note: the captcha state is not cleared by this
tool itself; it changes only if the response parse stores a new one. -/
def solveCaptchaTool (indices : List Int) (resp : HttpResponse)
    (fi : String → Option Buffer) (st : SearchState) (cs : CaptchaState) :
    ToolResult × SearchState × CaptchaState × List IssuedRequest :=
  if !captchaActive cs then (.noCaptchaActive, st, cs, [])
  else
    let body := buildCaptchaForm (cs.submitValue.getD "")
      (cs.checkboxNames.getD []) indices
    let req : IssuedRequest := ⟨body, st, cs⟩
    if !resp.ok then (.transportError resp.status, st, cs, [req])
    else
      let p := parseSearchResults resp.body st cs
      (.parsed (dataToResult p.1 fi), p.2.1, p.2.2, [req])

/-! Concrete fixtures used by witnesses and counterexamples. -/

/-- A tile-download oracle on which every download fails. -/
def fetchNone : String → Option Buffer := fun _ => none

/-- A tile-download oracle on which every download succeeds. -/
def fetchAll : String → Option Buffer := fun _ => some [0]

/-- Nine checkbox field names as the extractor derives them from the tile
filenames a.jpg .. i.jpg. -/
def names9 : List String :=
  ["image-check_a", "image-check_b", "image-check_c", "image-check_d",
   "image-check_e", "image-check_f", "image-check_g", "image-check_h",
   "image-check_i"]

/-- Nine absolute tile URLs. -/
def urls9 : List String :=
  ["https://duckduckgo.com/share/img/a.jpg", "https://duckduckgo.com/share/img/b.jpg",
   "https://duckduckgo.com/share/img/c.jpg", "https://duckduckgo.com/share/img/d.jpg",
   "https://duckduckgo.com/share/img/e.jpg", "https://duckduckgo.com/share/img/f.jpg",
   "https://duckduckgo.com/share/img/g.jpg", "https://duckduckgo.com/share/img/h.jpg",
   "https://duckduckgo.com/share/img/i.jpg"]

/-- Eight absolute tile URLs. -/
def urls8 : List String := urls9.take 8

/-- A fully populated (active) captcha state. -/
def cs0 : CaptchaState :=
  { challenge := some "Select all squares containing a traffic light"
    images := some urls9
    action := some "/anomaly.html"
    submitValue := some "v0"
    checkboxNames := some names9 }

/-- A session in the middle of a paginated search: page 4 with a pending
token. -/
def stPage4 : SearchState :=
  { currentQuery := some "old query", currentPage := 4
    nextFormData := some [("q", "old query"), ("s", "30")] }

/-- A plain results document with two items (the second without a
snippet) and no Next control. -/
def docResultsNoNext : Doc :=
  { challengeForm := none, errorForm := none, successForm := false
    hasResultsContainer := true
    results := [⟨some "A", some "https://a.example/", some "a-desc"⟩,
                ⟨some "B", some "https://b.example/", none⟩]
    nextControl := none }

/-- The same results document with a Next control carrying two named
inputs, one unnamed input and one empty-named input. -/
def docResultsNext : Doc :=
  { docResultsNoNext with
      nextControl := some [⟨some "q", some "old query"⟩, ⟨some "s", some "30"⟩,
                           ⟨none, some "zz"⟩, ⟨some "", some "ww"⟩] }

/-- An ok transport response whose body is the plain results document. -/
def respResultsOk : HttpResponse := ⟨true, 200, docResultsNoNext⟩

/-- A challenge form with nine tile images of which one src has an empty
filename stem. -/
def chalFormBadStem : ChallengeForm :=
  { action := some "/anomaly.html", submitValue := some "v0"
    instructions := "Select all squares containing a bus"
    images := [⟨some "share/img/a.jpg"⟩, ⟨some "share/img/b.jpg"⟩,
               ⟨some "share/img/c.jpg"⟩, ⟨some "share/img/d.jpg"⟩,
               ⟨some "share/img/e.jpg"⟩, ⟨some "share/img/f.jpg"⟩,
               ⟨some "share/img/g.jpg"⟩, ⟨some "share/img/h.jpg"⟩,
               ⟨some "/.jpg"⟩] }

/-- A document carrying the nine-tile challenge form with one bad stem. -/
def docChalBadStem : Doc :=
  { challengeForm := some chalFormBadStem, errorForm := none
    successForm := false, hasResultsContainer := false
    results := [], nextControl := none }

/-- A challenge form whose submit button carries no value attribute. -/
def chalFormNoSubmit : ChallengeForm :=
  { action := some "/anomaly.html", submitValue := none
    instructions := "Select all squares containing a bicycle"
    images := [⟨some "share/img/a.jpg"⟩] }

/-- A document carrying the challenge form without a submit value. -/
def docChalNoSubmit : Doc :=
  { challengeForm := some chalFormNoSubmit, errorForm := none
    successForm := false, hasResultsContainer := false
    results := [], nextControl := none }

/-- A challenge form with nine well-formed tiles. -/
def chalForm9 : ChallengeForm :=
  { action := some "/anomaly.html", submitValue := some "v0"
    instructions := "Select all squares containing a traffic light"
    images := [⟨some "share/img/a.jpg"⟩, ⟨some "share/img/b.jpg"⟩,
               ⟨some "share/img/c.jpg"⟩, ⟨some "share/img/d.jpg"⟩,
               ⟨some "share/img/e.jpg"⟩, ⟨some "share/img/f.jpg"⟩,
               ⟨some "share/img/g.jpg"⟩, ⟨some "share/img/h.jpg"⟩,
               ⟨some "share/img/i.jpg"⟩] }

/-- True when the item has a title element whose trimmed text is
nonempty; exactly the items parseSearchResults pushes. -/
def itemTitled (r : ResultItem) : Bool :=
  match r.title with
  | some t => if jsTrim t = "" then false else true
  | none => false

/-- The record extracted from a titled item: trimmed title, raw href
defaulting to the empty string, trimmed snippet defaulting to the empty
string. -/
def itemRecord (r : ResultItem) : SearchResult :=
  { title := jsTrim ((r.title).getD "")
    url := (r.href).getD ""
    description := ((r.snippet).map jsTrim).getD "" }

/-- A fresh session with no pending form data. -/
def stFresh : SearchState :=
  { currentQuery := some "fresh", currentPage := 1, nextFormData := none }

/-! Helper lemmas shared by the claim theorems. -/

/-- A parse of a document without a challenge form leaves the captcha
state untouched. -/
theorem parse_keeps_captcha (doc : Doc) (st : SearchState) (cs : CaptchaState)
    (h : doc.challengeForm = none) :
    (parseSearchResults doc st cs).2.2 = cs := by
  obtain ⟨chf, erf, suc, cont, res, nxt⟩ := doc
  simp only at h
  subst h
  cases erf <;> cases suc <;> cases cont <;> cases nxt <;>
    simp [parseSearchResults]

/-- A parse never changes the current query or the page counter. -/
theorem parse_keeps_query_page (doc : Doc) (st : SearchState) (cs : CaptchaState) :
    (parseSearchResults doc st cs).2.1.currentQuery = st.currentQuery ∧
    (parseSearchResults doc st cs).2.1.currentPage = st.currentPage := by
  obtain ⟨chf, erf, suc, cont, res, nxt⟩ := doc
  cases chf <;> cases erf <;> cases suc <;> cases cont <;> cases nxt <;>
    simp [parseSearchResults]

/-- On a list of titled items, the extraction filter acts as a map. -/
theorem filterMap_extractResult_eq (l : List ResultItem)
    (h : ∀ r ∈ l, itemTitled r = true) :
    l.filterMap extractResult = l.map itemRecord := by
  induction l with
  | nil => rfl
  | cons a t ih =>
      have ha := h a (List.mem_cons_self a t)
      have ht : ∀ r ∈ t, itemTitled r = true :=
        fun r hr => h r (List.mem_cons_of_mem a hr)
      unfold itemTitled at ha
      cases hat : a.title with
      | none => rw [hat] at ha; cases ha
      | some ttl =>
          rw [hat] at ha
          simp only [] at ha
          by_cases htr : jsTrim ttl = ""
          · rw [htr] at ha; cases ha
          · simp [List.filterMap_cons, extractResult, itemRecord, hat, htr, ih ht]

/-- When every download on the list succeeds and no URL is empty, the
surviving buffer count equals the URL count. -/
theorem downloadBuffers_length_eq (fi : String → Option Buffer)
    (images : List String)
    (h : ∀ u ∈ images, u ≠ "" ∧ (fi u).isSome = true) :
    (downloadBuffers fi images).length = images.length := by
  induction images with
  | nil => rfl
  | cons u t ih =>
      obtain ⟨hu, hf⟩ := h u (List.mem_cons_self u t)
      obtain ⟨b, hb⟩ := Option.isSome_iff_exists.mp hf
      have ht : ∀ v ∈ t, v ≠ "" ∧ (fi v).isSome = true :=
        fun v hv => h v (List.mem_cons_of_mem u hv)
      have ih2 := ih ht
      simp only [downloadBuffers] at ih2
      simp [downloadBuffers, List.filterMap_cons, hu, hb, ih2]
      intro a hamem
      obtain ⟨ha1, ha2⟩ := ht a hamem
      obtain ⟨ba, hba⟩ := Option.isSome_iff_exists.mp ha2
      simp [ha1, hba]

/-- When every tile src has a nonempty stem, one checkbox name is pushed
per tile. -/
theorem challengeCheckboxNames_length_eq (imgs : List ImageElem)
    (hstem : ∀ e ∈ imgs, imageStem ((e.src).getD "") ≠ "") :
    (challengeCheckboxNames imgs).length = imgs.length := by
  induction imgs with
  | nil => rfl
  | cons e t ih =>
      have he := hstem e (List.mem_cons_self e t)
      have ht : ∀ x ∈ t, imageStem ((x.src).getD "") ≠ "" :=
        fun x hx => hstem x (List.mem_cons_of_mem e hx)
      have ih2 := ih ht
      simp only [challengeCheckboxNames] at ih2
      simp [challengeCheckboxNames, List.filterMap_cons, checkboxNameOf, he, ih2]

/-- When some tile src has an empty stem, strictly fewer checkbox names
than tiles are pushed. -/
theorem challengeCheckboxNames_length_lt (imgs : List ImageElem)
    (h : ∃ e ∈ imgs, imageStem ((e.src).getD "") = "") :
    (challengeCheckboxNames imgs).length < imgs.length := by
  induction imgs with
  | nil => obtain ⟨e, he, _⟩ := h; cases he
  | cons a t ih =>
      obtain ⟨e, he, hstem⟩ := h
      rcases List.mem_cons.mp he with rfl | het
      · have hFa : checkboxNameOf e = none := by
          unfold checkboxNameOf
          rw [if_pos hstem]
        have hle := List.length_filterMap_le checkboxNameOf t
        simp only [challengeCheckboxNames] at hle ⊢
        rw [List.filterMap_cons_none hFa]
        simp only [List.length_cons]
        omega
      · have hlt := ih ⟨e, het, hstem⟩
        simp only [challengeCheckboxNames] at hlt ⊢
        cases hFa : checkboxNameOf a with
        | none =>
            rw [List.filterMap_cons_none hFa]
            simp only [List.length_cons]
            omega
        | some nm =>
            rw [List.filterMap_cons_some hFa]
            simp only [List.length_cons]
            omega

/-! Claim theorems. -/

/-- Claim C4: whenever search_next is called with no pending token (null
or empty), or with the page counter beyond the fixed cap of 5, it fails
with the no-next-page error, issues zero network requests, and leaves the
session and captcha state unchanged. -/
theorem c4_pagination_exhausted (resp : HttpResponse)
    (fi : String → Option Buffer) (st : SearchState) (cs : CaptchaState)
    (h : st.nextFormData = none ∨ st.nextFormData = some [] ∨ 5 < st.currentPage) :
    searchNextTool resp fi st cs = (ToolResult.noNextPage, st, cs, []) := by
  have hg : searchNextGuard st = true := by
    rcases h with h | h | h <;> simp [searchNextGuard, formFalsy, h]
  simp [searchNextTool, hg]

/-- Witness for C4 at a fresh session with no pending token. -/
theorem c4_witness :
    (stFresh.nextFormData = none ∨ stFresh.nextFormData = some [] ∨
      5 < stFresh.currentPage) ∧
    searchNextTool respResultsOk fetchNone stFresh cs0 =
      (ToolResult.noNextPage, stFresh, cs0, []) :=
  ⟨Or.inl rfl,
    c4_pagination_exhausted respResultsOk fetchNone stFresh cs0 (Or.inl rfl)⟩

/-- Claim C5: on every search_next call that passes the validity guard,
exactly one request is issued, its body is the old pending token, and the
session state at the moment of issue already has the token cleared and
the page counter incremented by exactly one. -/
theorem c5_token_consumed (resp : HttpResponse) (fi : String → Option Buffer)
    (st : SearchState) (cs : CaptchaState) (h : searchNextGuard st = false) :
    (searchNextTool resp fi st cs).2.2.2 =
      [⟨st.nextFormData.getD [],
        { st with currentPage := st.currentPage + 1, nextFormData := none }, cs⟩] ∧
    ∀ r ∈ (searchNextTool resp fi st cs).2.2.2,
      r.stateAtIssue.nextFormData = none ∧
      r.stateAtIssue.currentPage = st.currentPage + 1 ∧
      r.body = st.nextFormData.getD [] := by
  have key : (searchNextTool resp fi st cs).2.2.2 =
      [⟨st.nextFormData.getD [],
        { st with currentPage := st.currentPage + 1, nextFormData := none }, cs⟩] := by
    unfold searchNextTool
    rw [h]
    cases hok : resp.ok <;> simp [hok]
  refine ⟨key, ?_⟩
  intro r hr
  rw [key] at hr
  simp only [List.mem_singleton] at hr
  subst hr
  exact ⟨rfl, rfl, rfl⟩

/-- Witness for C5 at a mid-pagination session. -/
theorem c5_witness :
    searchNextGuard stPage4 = false ∧
    ((searchNextTool respResultsOk fetchNone stPage4 cs0).2.2.2 =
      [⟨stPage4.nextFormData.getD [],
        { stPage4 with currentPage := stPage4.currentPage + 1,
                       nextFormData := none }, cs0⟩] ∧
    ∀ r ∈ (searchNextTool respResultsOk fetchNone stPage4 cs0).2.2.2,
      r.stateAtIssue.nextFormData = none ∧
      r.stateAtIssue.currentPage = stPage4.currentPage + 1 ∧
      r.body = stPage4.nextFormData.getD []) :=
  ⟨rfl, c5_token_consumed respResultsOk fetchNone stPage4 cs0 rfl⟩

/-- Counterexample to claim C1 as stated: after a search that returns a
plain results page, the previously active challenge descriptor is still
stored, and a solve_challenge issued before any new challenge is detected
does not fail with the no-active-challenge error; it issues a request. -/
theorem c1_counterexample :
    captchaActive cs0 = true ∧
    (searchTool "new query" respResultsOk fetchNone stPage4 cs0).2.2.1 = cs0 ∧
    (solveCaptchaTool [1] respResultsOk fetchNone
        (searchTool "new query" respResultsOk fetchNone stPage4 cs0).2.1 cs0).1 ≠
      ToolResult.noCaptchaActive ∧
    (solveCaptchaTool [1] respResultsOk fetchNone
        (searchTool "new query" respResultsOk fetchNone stPage4 cs0).2.1 cs0).2.2.2 ≠
      [] := by
  refine ⟨rfl, by decide, by decide, by decide⟩

/-- Claim C1 as amended: search resets the session to the fresh query
with page 1 and no pending token, so a search_next issued before a new
token is produced fails with the no-next-page error and no request; but
the reset does not discard an active challenge descriptor: when the
search response carries no challenge form the prior descriptor survives,
and a solve_challenge issued then proceeds instead of failing. -/
theorem c1_amended (query : String) (resp resp2 : HttpResponse)
    (fi : String → Option Buffer) (st : SearchState) (cs : CaptchaState)
    (hnoch : resp.body.challengeForm = none) (hact : captchaActive cs = true) :
    (searchReset query).currentQuery = some query ∧
    (searchReset query).currentPage = 1 ∧
    (searchReset query).nextFormData = none ∧
    searchNextTool resp2 fi (searchReset query) cs =
      (ToolResult.noNextPage, searchReset query, cs, []) ∧
    (searchTool query resp fi st cs).2.1.currentQuery = some query ∧
    (searchTool query resp fi st cs).2.1.currentPage = 1 ∧
    (searchTool query resp fi st cs).2.2.1 = cs ∧
    (solveCaptchaTool [1] resp2 fi (searchReset query) cs).1 ≠
      ToolResult.noCaptchaActive := by
  refine ⟨rfl, rfl, rfl, ?_, ?_, ?_, ?_, ?_⟩
  · simp [searchNextTool, searchNextGuard, formFalsy, searchReset]
  · unfold searchTool
    cases hok : resp.ok
    · simp [hok, searchReset]
    · have hq := (parse_keeps_query_page resp.body
        { currentQuery := some query, currentPage := 1, nextFormData := none } cs).1
      simp [hok, searchReset, hq]
  · unfold searchTool
    cases hok : resp.ok
    · simp [hok, searchReset]
    · have hp := (parse_keeps_query_page resp.body
        { currentQuery := some query, currentPage := 1, nextFormData := none } cs).2
      simp [hok, searchReset, hp]
  · unfold searchTool
    cases hok : resp.ok
    · simp [hok]
    · simp [hok, parse_keeps_captcha resp.body (searchReset query) cs hnoch]
  · unfold solveCaptchaTool
    rw [hact]
    cases hok : resp2.ok <;> simp [hok]

/-- Witness for C1 as amended, at a results response and the active
challenge state. -/
theorem c1_amended_witness :
    respResultsOk.body.challengeForm = none ∧ captchaActive cs0 = true ∧
    ((searchReset "fresh").currentQuery = some "fresh" ∧
    (searchReset "fresh").currentPage = 1 ∧
    (searchReset "fresh").nextFormData = none ∧
    searchNextTool respResultsOk fetchNone (searchReset "fresh") cs0 =
      (ToolResult.noNextPage, searchReset "fresh", cs0, []) ∧
    (searchTool "fresh" respResultsOk fetchNone stPage4 cs0).2.1.currentQuery =
      some "fresh" ∧
    (searchTool "fresh" respResultsOk fetchNone stPage4 cs0).2.1.currentPage = 1 ∧
    (searchTool "fresh" respResultsOk fetchNone stPage4 cs0).2.2.1 = cs0 ∧
    (solveCaptchaTool [1] respResultsOk fetchNone (searchReset "fresh") cs0).1 ≠
      ToolResult.noCaptchaActive) :=
  ⟨rfl, rfl,
    c1_amended "fresh" respResultsOk respResultsOk fetchNone stPage4 cs0 rfl rfl⟩

/-- Claim C2, code behavior at the failing input: with an active
descriptor, a solve_challenge that completes with an ok results-page
response leaves the captcha state fully populated — the prior descriptor
is not discarded — so a second solve_challenge re-submits against the old
descriptor instead of failing. -/
theorem c2_code_behavior :
    captchaActive cs0 = true ∧
    (solveCaptchaTool [1] respResultsOk fetchNone stPage4 cs0).1 =
      ToolResult.parsed (DataResult.resultsMsg 2 false
        [⟨"A", "https://a.example/", "a-desc"⟩, ⟨"B", "https://b.example/", ""⟩]) ∧
    (solveCaptchaTool [1] respResultsOk fetchNone stPage4 cs0).2.2.1 = cs0 ∧
    (solveCaptchaTool [1] respResultsOk fetchNone stPage4
        (solveCaptchaTool [1] respResultsOk fetchNone stPage4 cs0).2.2.1).2.2.2 =
      [⟨buildCaptchaForm "v0" names9 [1], stPage4, cs0⟩] := by
  refine ⟨rfl, by decide, by decide, by decide⟩

/-- Counterexample to claim C3 as stated: a challenge form with nine tile
images one of which has an empty filename stem yields a descriptor with 9
imageUrls but only 8 checkboxFieldNames, and when all nine downloads
succeed the Puzzle Compositor path is still entered. -/
theorem c3_counterexample :
    ((parseSearchResults docChalBadStem stPage4 cs0).2.2.images.getD []).length = 9 ∧
    ((parseSearchResults docChalBadStem stPage4 cs0).2.2.checkboxNames.getD
      []).length = 8 ∧
    dataToResult (parseSearchResults docChalBadStem stPage4 cs0).1 fetchAll =
      DataResult.captchaPuzzle ⟨768, 768⟩ := by
  refine ⟨by decide, by decide, by decide⟩

/-- Claim C3 as amended: a descriptor carries at most as many checkbox
field names as image URLs, with equality exactly when (if and only if)
every tile src has a nonempty filename stem; and the compositor path is
guarded only by the number of successfully downloaded buffers being
nine, not by the counts agreeing. -/
theorem c3_amended (imgs : List ImageElem) (ch : String)
    (images : List String) (fi : String → Option Buffer)
    (hstem : ∀ e ∈ imgs, imageStem ((e.src).getD "") ≠ "") :
    (challengeCheckboxNames imgs).length = (challengeImages imgs).length ∧
    (∀ imgs2 : List ImageElem,
      (challengeCheckboxNames imgs2).length ≤ (challengeImages imgs2).length) ∧
    (∀ imgs2 : List ImageElem,
      (challengeCheckboxNames imgs2).length = (challengeImages imgs2).length ↔
        ∀ e ∈ imgs2, imageStem ((e.src).getD "") ≠ "") ∧
    dataToResult (ParseData.captcha ch images) fi =
      (if (downloadBuffers fi images).length = 9
        then DataResult.captchaPuzzle (pureimageMake (tileSize * 3) (tileSize * 3))
        else DataResult.captchaUnavailable) := by
  have hiff : ∀ imgs2 : List ImageElem,
      (challengeCheckboxNames imgs2).length = (challengeImages imgs2).length ↔
        ∀ e ∈ imgs2, imageStem ((e.src).getD "") ≠ "" := by
    intro imgs2
    constructor
    · intro heq
      by_contra hnot
      push_neg at hnot
      have hlt := challengeCheckboxNames_length_lt imgs2 hnot
      have hlen : (challengeImages imgs2).length = imgs2.length := by
        simp [challengeImages]
      omega
    · intro hall
      rw [challengeCheckboxNames_length_eq imgs2 hall]
      simp [challengeImages]
  refine ⟨(hiff imgs).mpr hstem, ?_, hiff, rfl⟩
  · intro imgs2
    have hle := List.length_filterMap_le checkboxNameOf imgs2
    simpa [challengeCheckboxNames, challengeImages] using hle

/-- Witness for C3 as amended, at a nine-tile challenge form with
well-formed stems. -/
theorem c3_amended_witness :
    (∀ e ∈ chalForm9.images, imageStem ((e.src).getD "") ≠ "") ∧
    ((challengeCheckboxNames chalForm9.images).length =
      (challengeImages chalForm9.images).length ∧
    (∀ imgs2 : List ImageElem,
      (challengeCheckboxNames imgs2).length ≤ (challengeImages imgs2).length) ∧
    (∀ imgs2 : List ImageElem,
      (challengeCheckboxNames imgs2).length = (challengeImages imgs2).length ↔
        ∀ e ∈ imgs2, imageStem ((e.src).getD "") ≠ "") ∧
    dataToResult (ParseData.captcha "c" urls9) fetchAll =
      (if (downloadBuffers fetchAll urls9).length = 9
        then DataResult.captchaPuzzle (pureimageMake (tileSize * 3) (tileSize * 3))
        else DataResult.captchaUnavailable)) :=
  ⟨by decide, c3_amended chalForm9.images "c" urls9 fetchAll (by decide)⟩

/-- Claim C6: for a descriptor whose checkbox field names are all
nonempty (as every extractor-produced name is, which the second conjunct
states), the solve form is the submit field followed by exactly one
checked field per in-range index, mapped positionally; and for an active
descriptor the solve tool issues exactly that form; the cited example
instance is the last conjunct. -/
theorem c6_solve_form (names : List String) (v : String) (indices : List Int)
    (hn : ∀ n ∈ names, n ≠ "") :
    buildCaptchaForm v names indices =
      ("challenge-submit", v) ::
        (indices.filter fun i => decide (1 ≤ i ∧ i ≤ (names.length : Int))).map
          (fun i => (names[(i - 1).toNat]?.getD "", "1")) ∧
    (∀ imgs : List ImageElem, ∀ n ∈ challengeCheckboxNames imgs, n ≠ "") ∧
    (∀ (resp : HttpResponse) (fi : String → Option Buffer) (st : SearchState)
        (cs : CaptchaState), captchaActive cs = true →
      (solveCaptchaTool indices resp fi st cs).2.2.2 =
        [⟨buildCaptchaForm (cs.submitValue.getD "") (cs.checkboxNames.getD [])
            indices, st, cs⟩]) ∧
    buildCaptchaForm "s" ["f1", "f2", "f3", "f4", "f5", "f6", "f7", "f8", "f9"]
        [3, 7] =
      [("challenge-submit", "s"), ("f3", "1"), ("f7", "1")] := by
  refine ⟨?_, ?_, ?_, by decide⟩
  · unfold buildCaptchaForm
    congr 1
    induction indices with
    | nil => rfl
    | cons i t ih =>
        by_cases hi : 1 ≤ i ∧ i ≤ (names.length : Int)
        · have hlt : (i - 1).toNat < names.length := by omega
          have hget : names[(i - 1).toNat]? = some names[(i - 1).toNat] :=
            List.getElem?_eq_getElem hlt
          have hne := hn _ (List.getElem_mem hlt)
          have hFi : checkboxFieldFor names i =
              some (names[(i - 1).toNat], "1") := by
            unfold checkboxFieldFor
            rw [if_pos hi]
            simp only [hget, if_neg hne]
          have hdec : decide (1 ≤ i ∧ i ≤ (names.length : Int)) = true :=
            decide_eq_true hi
          rw [List.filterMap_cons_some hFi,
            @List.filter_cons_of_pos Int
              (fun j => decide (1 ≤ j ∧ j ≤ (names.length : Int))) i t hdec,
            List.map_cons, ih, hget]
          simp only [Option.getD_some]
        · have hFi : checkboxFieldFor names i = none := by
            unfold checkboxFieldFor
            rw [if_neg hi]
          have hdec : ¬(decide (1 ≤ i ∧ i ≤ (names.length : Int)) = true) := by
            simpa using hi
          rw [List.filterMap_cons_none hFi,
            @List.filter_cons_of_neg Int
              (fun j => decide (1 ≤ j ∧ j ≤ (names.length : Int))) i t hdec, ih]
  · intro imgs n hmem
    obtain ⟨e, _he, heq⟩ := List.mem_filterMap.mp hmem
    unfold checkboxNameOf at heq
    by_cases hstem : imageStem ((e.src).getD "") = ""
    · rw [if_pos hstem] at heq; cases heq
    · rw [if_neg hstem] at heq
      cases heq
      intro h0
      have hlen := congrArg String.length h0
      rw [String.length_append] at hlen
      have h12 : ("image-check_" : String).length = 12 := rfl
      have h0len : ("" : String).length = 0 := rfl
      omega
  · intro resp fi st cs hact
    unfold solveCaptchaTool
    rw [hact]
    cases hok : resp.ok <;> simp [hok]

/-- Witness for C6 at the nine extractor-derived names and the cited
index list. -/
theorem c6_witness :
    (∀ n ∈ names9, n ≠ "") ∧
    buildCaptchaForm "v0" names9 [3, 7] =
      ("challenge-submit", "v0") ::
        (([3, 7] : List Int).filter fun i =>
            decide (1 ≤ i ∧ i ≤ (names9.length : Int))).map
          (fun i => (names9[(i - 1).toNat]?.getD "", "1")) :=
  ⟨by decide, (c6_solve_form names9 "v0" [3, 7] (by decide)).1⟩

/-- Claim C7: one parse classifies the document into exactly one of the
five outcomes, in the priority order of the source (challenge, then
error, then success, then container check, then results), a challenge
classification being the only one that stores a descriptor and a results
classification the only one that stores a pending token — never both
from the same parse. -/
theorem c7_classification (doc : Doc) (st : SearchState) (cs : CaptchaState) :
    ((parseSearchResults doc st cs).1.isCaptcha = doc.challengeForm.isSome) ∧
    ((parseSearchResults doc st cs).1.isFailed =
      (!doc.challengeForm.isSome && doc.errorForm.isSome)) ∧
    ((parseSearchResults doc st cs).1.isSuccess =
      (!doc.challengeForm.isSome && !doc.errorForm.isSome && doc.successForm)) ∧
    ((parseSearchResults doc st cs).1.isUnknown =
      (!doc.challengeForm.isSome && !doc.errorForm.isSome && !doc.successForm &&
        !doc.hasResultsContainer)) ∧
    ((parseSearchResults doc st cs).1.isResults =
      (!doc.challengeForm.isSome && !doc.errorForm.isSome && !doc.successForm &&
        doc.hasResultsContainer)) ∧
    ((parseSearchResults doc st cs).1.isCaptcha = false →
      (parseSearchResults doc st cs).2.2 = cs) ∧
    ((parseSearchResults doc st cs).1.isResults = false →
      (parseSearchResults doc st cs).2.1 = st) := by
  obtain ⟨chf, erf, suc, cont, res, nxt⟩ := doc
  cases chf <;> cases erf <;> cases suc <;> cases cont <;> cases nxt <;>
    simp [parseSearchResults, ParseData.isCaptcha, ParseData.isFailed,
      ParseData.isSuccess, ParseData.isUnknown, ParseData.isResults]

/-- Witness for C7 at a results document with a Next control: the parse
classifies as results and, not being a challenge, leaves the captcha
state unchanged. -/
theorem c7_witness :
    (parseSearchResults docResultsNext stPage4 cs0).1.isResults = true ∧
    (parseSearchResults docResultsNext stPage4 cs0).2.2 = cs0 :=
  ⟨by decide,
    (c7_classification docResultsNext stPage4 cs0).2.2.2.2.2.1 (by decide)⟩

/-- Claim C8: on a valid results document (no challenge, error or
success markers, a results container, every item carrying a nonempty
trimmed title) the parse classifies as results with exactly one record
per item in document order, snippets defaulting to the empty string;
with a Next control the stored pagination token is exactly the named
sibling input fields with values defaulting to the empty string, and it
is nonempty as soon as one sibling input has a truthy name; with no Next
control the session state is left unchanged, so no token is produced. -/
theorem c8_extraction (doc : Doc) (st : SearchState) (cs : CaptchaState)
    (hch : doc.challengeForm = none) (herr : doc.errorForm = none)
    (hsuc : doc.successForm = false) (hcont : doc.hasResultsContainer = true)
    (htitled : ∀ r ∈ doc.results, itemTitled r = true) :
    (parseSearchResults doc st cs).1 =
      ParseData.results doc.nextControl.isSome (doc.results.map itemRecord) ∧
    (doc.results.map itemRecord).length = doc.results.length ∧
    (∀ r : ResultItem, r.snippet = none → (itemRecord r).description = "") ∧
    (∀ inputs, doc.nextControl = some inputs →
      (parseSearchResults doc st cs).2.1.nextFormData =
        some (namedPairs inputs)) ∧
    (∀ inputs, doc.nextControl = some inputs →
      (∃ i ∈ inputs, ∃ nm, i.name = some nm ∧ nm ≠ "") →
      namedPairs inputs ≠ []) ∧
    (doc.nextControl = none → (parseSearchResults doc st cs).2.1 = st) := by
  have hmap := filterMap_extractResult_eq doc.results htitled
  obtain ⟨chf, erf, suc, cont, res, nxt⟩ := doc
  simp only at hch herr hsuc hcont hmap
  subst hch herr hsuc hcont
  refine ⟨?_, by simp, ?_, ?_, ?_, ?_⟩
  · cases nxt <;> simp [parseSearchResults, hmap]
  · intro r hs
    simp [itemRecord, hs]
  · intro inputs hin
    simp only at hin
    subst hin
    simp [parseSearchResults]
  · intro inputs _hin hex
    obtain ⟨i, hi, nm, hnm, hne⟩ := hex
    have hmem : (nm, i.value.getD "") ∈ namedPairs inputs := by
      simp only [namedPairs, List.mem_filterMap]
      refine ⟨i, hi, ?_⟩
      rw [hnm]
      simp [hne]
    exact List.ne_nil_of_mem hmem
  · intro hin
    simp only at hin
    subst hin
    simp [parseSearchResults]

/-- Witness for C8 at the two-item results document with a Next control
holding two named inputs, one unnamed input and one empty-named input. -/
theorem c8_witness :
    (docResultsNext.challengeForm = none ∧ docResultsNext.errorForm = none ∧
      docResultsNext.successForm = false ∧
      docResultsNext.hasResultsContainer = true ∧
      ∀ r ∈ docResultsNext.results, itemTitled r = true) ∧
    ((parseSearchResults docResultsNext stPage4 cs0).1 =
      ParseData.results docResultsNext.nextControl.isSome
        (docResultsNext.results.map itemRecord) ∧
    (docResultsNext.results.map itemRecord).length =
      docResultsNext.results.length ∧
    (∀ r : ResultItem, r.snippet = none → (itemRecord r).description = "") ∧
    (∀ inputs, docResultsNext.nextControl = some inputs →
      (parseSearchResults docResultsNext stPage4 cs0).2.1.nextFormData =
        some (namedPairs inputs)) ∧
    (∀ inputs, docResultsNext.nextControl = some inputs →
      (∃ i ∈ inputs, ∃ nm, i.name = some nm ∧ nm ≠ "") →
      namedPairs inputs ≠ []) ∧
    (docResultsNext.nextControl = none →
      (parseSearchResults docResultsNext stPage4 cs0).2.1 = stPage4)) :=
  ⟨⟨rfl, rfl, rfl, rfl, by decide⟩,
    c8_extraction docResultsNext stPage4 cs0 rfl rfl rfl rfl (by decide)⟩

/-- Claim C9: when a challenge carries nine tile URLs and every download
succeeds, the compositor produces a single composite whose width and
height are each three times the fixed tile edge; with eight or fewer
surviving buffers it signals unavailability and produces no composite. -/
theorem c9_compositor (ch : String) (images : List String)
    (fi : String → Option Buffer) :
    ((images.length = 9 ∧ ∀ u ∈ images, u ≠ "" ∧ (fi u).isSome = true) →
      ∃ img : Image, dataToResult (ParseData.captcha ch images) fi =
          DataResult.captchaPuzzle img ∧
        img.width = 3 * tileSize ∧ img.height = 3 * tileSize) ∧
    ((downloadBuffers fi images).length ≤ 8 →
      dataToResult (ParseData.captcha ch images) fi =
        DataResult.captchaUnavailable) := by
  constructor
  · rintro ⟨h9, hsucc⟩
    have hlen : (downloadBuffers fi images).length = 9 := by
      rw [downloadBuffers_length_eq fi images hsucc, h9]
    refine ⟨pureimageMake (tileSize * 3) (tileSize * 3), ?_, by decide, by decide⟩
    simp [dataToResult, hlen]
  · intro hle
    have hne : (downloadBuffers fi images).length ≠ 9 := by omega
    simp [dataToResult, hne]

/-- Witness for C9: all nine downloads succeeding yield the 768 by 768
composite; eight URLs leave at most eight buffers and yield the
unavailability outcome. -/
theorem c9_witness :
    (urls9.length = 9 ∧ ∀ u ∈ urls9, u ≠ "" ∧ (fetchAll u).isSome = true) ∧
    (∃ img : Image, dataToResult (ParseData.captcha "c" urls9) fetchAll =
        DataResult.captchaPuzzle img ∧
      img.width = 3 * tileSize ∧ img.height = 3 * tileSize) ∧
    ((downloadBuffers fetchAll urls8).length ≤ 8 ∧
      dataToResult (ParseData.captcha "c" urls8) fetchAll =
        DataResult.captchaUnavailable) :=
  ⟨by decide, (c9_compositor "c" urls9 fetchAll).1 (by decide),
    by decide, (c9_compositor "c" urls8 fetchAll).2 (by decide)⟩

/-- Claim C10: when the most recently parsed challenge form yields an
empty instruction text, an empty action, or an empty submit value, the
parse still classifies as a challenge and stores the descriptor, yet a
subsequent solve_challenge reports that no challenge is active and
issues no network request. -/
theorem c10_empty_fields (doc : Doc) (f : ChallengeForm) (st : SearchState)
    (cs : CaptchaState) (indices : List Int) (resp : HttpResponse)
    (fi : String → Option Buffer)
    (hf : doc.challengeForm = some f)
    (hempty : f.instructions = "" ∨ f.action.getD "" = "" ∨
      f.submitValue.getD "" = "") :
    (parseSearchResults doc st cs).1.isCaptcha = true ∧
    (parseSearchResults doc st cs).2.2 = challengeCaptchaState f ∧
    solveCaptchaTool indices resp fi st (challengeCaptchaState f) =
      (ToolResult.noCaptchaActive, st, challengeCaptchaState f, []) := by
  have hguard : captchaActive (challengeCaptchaState f) = false := by
    rcases hempty with h | h | h <;>
      simp [captchaActive, challengeCaptchaState, strFalsy, h]
  refine ⟨?_, ?_, ?_⟩
  · unfold parseSearchResults
    rw [hf]
    rfl
  · unfold parseSearchResults
    rw [hf]
  · unfold solveCaptchaTool
    rw [hguard]
    rfl

/-- Witness for C10 at a challenge form whose submit button carries no
value attribute. -/
theorem c10_witness :
    (docChalNoSubmit.challengeForm = some chalFormNoSubmit ∧
      chalFormNoSubmit.submitValue.getD "" = "") ∧
    ((parseSearchResults docChalNoSubmit stPage4 cs0).1.isCaptcha = true ∧
    (parseSearchResults docChalNoSubmit stPage4 cs0).2.2 =
      challengeCaptchaState chalFormNoSubmit ∧
    solveCaptchaTool [1] respResultsOk fetchNone stPage4
        (challengeCaptchaState chalFormNoSubmit) =
      (ToolResult.noCaptchaActive, stPage4,
        challengeCaptchaState chalFormNoSubmit, [])) :=
  ⟨⟨rfl, rfl⟩,
    c10_empty_fields docChalNoSubmit chalFormNoSubmit stPage4 cs0 [1]
      respResultsOk fetchNone rfl (Or.inr (Or.inr rfl))⟩

end McpWeb
